import Mathlib

/-!
Verification of the BRATS 2017 patch-based segmentation pipeline
(`test_brats2017.py`, `train_test_brats2017.py`, `train_brats2017.py`,
`nets.py`) against its natural-language specification.

The development shallowly embeds the parts of the source that the claims
are about: volume reconstruction from per-coordinate predictions
(`test_network`, and the test loop of `train_test_brats2017.main`),
label-head splitting and the alternating freeze/unfreeze retraining loop
(`transfer_learning`), convolutional weight seeding/transfer by
name-filtered layer lists (`transfer_learning` and `main`), the pickled
cache gating, the per-patient control flow of `main` with its `IOError`
handlers, and the memoised `test_network` entry.

Volumes are embedded as functions from integer coordinates to label
values, numpy float probability vectors as lists of rationals, and
fallible I/O (file loads, model saves) as `Except`-valued oracles.
-/

namespace Brats2017

/-- A voxel coordinate, as the integer index triples used by
`get_mask_voxels` / numpy fancy indexing. -/
abbrev Coord := ℕ × ℕ × ℕ

/-- A label volume: integer label value at every coordinate
(numpy `uint8` arrays hold small naturals). -/
abbrev Vol := Coord → ℕ

/-- Auxiliary loop of `argmax`: current index, best index, best value so
far; mirrors `np.argmax`, which returns the first index attaining the
maximum. -/
def argmaxAux : List ℚ → ℕ → ℕ → ℚ → ℕ
  | [], _, bi, _ => bi
  | x :: xs, i, bi, bv => if bv < x then argmaxAux xs (i + 1) i x else argmaxAux xs (i + 1) bi bv

/-- Embedding of `np.argmax` on a probability vector: first index of the
maximal entry (`np.argmax(y_pr_pred, axis=1)` per row). -/
def argmax : List ℚ → ℕ
  | [] => 0
  | x :: xs => argmaxAux xs 1 0 x

/-- Embedding of the vectorised assignment `image[x, y, z] = vals`:
write `vals` at the listed coordinates, later writes overwriting
earlier ones. -/
def writeAt (buf : Vol) : List Coord → List ℕ → Vol
  | c :: cs, v :: vs => writeAt (fun x => if x = c then v else buf x) cs vs
  | _, _ => buf

/-- Embedding of the reconstruction buffer of `test_network` /
`train_test_brats2017.main`: `image = np.zeros_like(roi)` followed by
`image[x, y, z] = np.argmax(probs, axis=1)`. -/
def reconstruct (centers : List Coord) (preds : List (List ℚ)) : Vol :=
  writeAt (fun _ => 0) centers (preds.map argmax)

/-- All coordinates of a volume with the given dimensions. -/
def allCoords (dims : Coord) : List Coord :=
  (List.range dims.1).flatMap fun i =>
    (List.range dims.2.1).flatMap fun j =>
      (List.range dims.2.2).map fun k => (i, j, k)

/-- The 6-neighbourhood of a coordinate (truncated subtraction at the
lower boundary returns the coordinate itself, which is harmless for
region growing). -/
def neighbors (c : Coord) : List Coord :=
  [ (c.1 + 1, c.2.1, c.2.2), (c.1 - 1, c.2.1, c.2.2),
    (c.1, c.2.1 + 1, c.2.2), (c.1, c.2.1 - 1, c.2.2),
    (c.1, c.2.1, c.2.2 + 1), (c.1, c.2.1, c.2.2 - 1) ]

/-- One step of region growing: add every candidate voxel adjacent to
the region. -/
def grow (s region : List Coord) : List Coord :=
  region ++ s.filter fun c =>
    decide (c ∉ region) && (neighbors c).any fun n => decide (n ∈ region)

/-- Fuelled flood fill of one connected component. -/
def floodFill : ℕ → List Coord → List Coord → List Coord
  | 0, _, region => region
  | fuel + 1, s, region =>
    let r := grow s region
    if r.length = region.length then region else floodFill fuel s r

/-- Fuelled worker for `components`: flood-fill the component of the
first remaining voxel, drop it, recurse on the rest. -/
def componentsAux : ℕ → List Coord → List (List Coord)
  | 0, _ => []
  | _, [] => []
  | fuel + 1, c :: rest =>
    let comp := floodFill (c :: rest).length (c :: rest) [c]
    comp :: componentsAux fuel (rest.filter fun x => decide (x ∉ comp))

/-- Connected components of a voxel set under 6-connectivity. -/
def components (s : List Coord) : List (List Coord) :=
  componentsAux s.length s

/-- The largest of a list of components (first one wins ties). -/
def largest (comps : List (List Coord)) : List Coord :=
  comps.foldl (fun best c => if best.length < c.length then c else best) []

/-- Modelled from the spec: `get_biggest_region` lives in `utils.py`,
which is not under `src/`. Section 4.6 (RegionCleaner): for each
foreground label value (or, in ROI mode, for the whole foreground at
once), keep only the single largest connected component of voxels with
that value and zero out all others; a label with no voxels is left
unchanged. Connectivity is fixed to 6-connectivity. -/
def get_biggest_region (dims : Coord) (v : Vol) (is_roi : Bool) : Vol :=
  if is_roi then
    let s := (allCoords dims).filter fun c => decide (v c ≠ 0)
    let keep := largest (components s)
    fun c => if v c ≠ 0 ∧ c ∉ keep then 0 else v c
  else
    fun c =>
      if v c ≠ 0 ∧
          c ∉ largest (components ((allCoords dims).filter fun x => decide (v x = v c))) then 0
      else v c

/-- The prediction returned by `net.predict_generator` in
`test_network`: either a single head (ROI network) or a list of heads,
of which the code uses `y_pr_pred[0]` (coarse binary-tumor head) and
`y_pr_pred[-1]` (most specific head). Each head holds one probability
vector per sampled center. -/
inductive PredOut where
  | single (probs : List (List ℚ))
  | multi (first last : List (List ℚ))

/-- Embedding of the compute branch of `test_network`
(`test_brats2017.py`, lines 188-234): build the ROI volume from the
coarse head's argmax, build the label volume from the most specific
head's argmax (or from the single head when the prediction is not a
list), and post-process the label volume with `get_biggest_region`.
Returns `(roi volume, final label volume)`. -/
def test_network_compute (dims : Coord) (centers : List Coord) (out : PredOut) : Vol × Vol :=
  match out with
  | .multi first last =>
    -- is_roi = False: tumor = argmax(y_pr_pred[0]); y_pred = argmax(y_pr_pred[-1])
    let roi := reconstruct centers first
    let image := reconstruct centers last
    (roi, get_biggest_region dims image false)
  | .single probs =>
    -- is_roi = True: tumor = argmax(y_pr_pred); image[x,y,z] = tumor
    let roi := reconstruct centers probs
    (roi, get_biggest_region dims (reconstruct centers probs) true)

/-- Coordinates that are never written keep the buffer's value. -/
theorem writeAt_not_mem (cs : List Coord) :
    ∀ (vs : List ℕ) (buf : Vol) (c : Coord), c ∉ cs → writeAt buf cs vs c = buf c := by
  induction cs with
  | nil => intro vs buf c _; rfl
  | cons c0 cs ih =>
    intro vs buf c h
    cases vs with
    | nil => rfl
    | cons v vs =>
      have hne : c ≠ c0 := fun he => h (he ▸ List.mem_cons_self c0 cs)
      have hnm : c ∉ cs := fun hm => h (List.mem_cons_of_mem _ hm)
      show writeAt (fun x => if x = c0 then v else buf x) cs vs c = buf c
      rw [ih vs _ c hnm]
      simp [hne]

/-- With distinct coordinates, the value written at the i-th coordinate
is the i-th value. -/
theorem writeAt_get (cs : List Coord) :
    ∀ (vs : List ℕ) (buf : Vol) (i : ℕ) (hi : i < cs.length) (hv : i < vs.length),
      cs.Nodup → writeAt buf cs vs (cs.get ⟨i, hi⟩) = vs.get ⟨i, hv⟩ := by
  induction cs with
  | nil => intro vs buf i hi; exact absurd hi (Nat.not_lt_zero i)
  | cons c0 cs ih =>
    intro vs buf i hi hv hnd
    cases vs with
    | nil => simp at hv
    | cons v vs =>
      cases i with
      | zero =>
        show writeAt (fun x => if x = c0 then v else buf x) cs vs c0 = v
        rw [writeAt_not_mem cs vs _ c0 (List.nodup_cons.mp hnd).1]
        simp
      | succ i =>
        have hi' : i < cs.length := Nat.lt_of_succ_lt_succ hi
        have hv' : i < vs.length := Nat.lt_of_succ_lt_succ hv
        show writeAt (fun x => if x = c0 then v else buf x) cs vs (cs.get ⟨i, hi'⟩) =
          vs.get ⟨i, hv'⟩
        exact ih vs _ i hi' hv' (List.nodup_cons.mp hnd).2

/-- C8: every reconstructed output volume starts as all-background and
is mutated only at the sampled coordinates with the argmax predicted
class: a voxel outside the sampled coordinate list is 0 in the buffer
before connected-region post-processing, and (for distinct sampled
coordinates) the i-th sampled coordinate holds the argmax of the i-th
prediction. -/
theorem C8_reconstruction_background (centers : List Coord) (preds : List (List ℚ)) :
    (∀ c, c ∉ centers → reconstruct centers preds c = 0) ∧
    (centers.Nodup → ∀ (i : ℕ) (hi : i < centers.length) (hp : i < preds.length),
      reconstruct centers preds (centers.get ⟨i, hi⟩) = argmax (preds.get ⟨i, hp⟩)) := by
  constructor
  · intro c hc
    exact writeAt_not_mem centers _ _ c hc
  · intro hnd i hi hp
    have hv : i < (preds.map argmax).length := by simpa using hp
    calc reconstruct centers preds (centers.get ⟨i, hi⟩)
        = (preds.map argmax).get ⟨i, hv⟩ :=
          writeAt_get centers (preds.map argmax) (fun _ => 0) i hi hv hnd
      _ = argmax (preds.get ⟨i, hp⟩) := by simp

/-- Witness for C8 at concrete input: centers (0,0,0) and (2,0,0) with
predictions [0,1] and [1,0]; the unsampled voxel (1,1,1) is 0 and the
first sampled voxel holds argmax [0,1] = 1. -/
theorem C8_reconstruction_background_witness :
    reconstruct [(0, 0, 0), (2, 0, 0)] [[0, 1], [1, 0]] (1, 1, 1) = 0 ∧
    reconstruct [(0, 0, 0), (2, 0, 0)] [[0, 1], [1, 0]] (0, 0, 0) = 1 := by
  constructor
  · exact (C8_reconstruction_background _ _).1 _ (by decide)
  · have h := (C8_reconstruction_background [(0, 0, 0), (2, 0, 0)] [[0, 1], [1, 0]]).2
      (by decide) 0 (by decide) (by decide)
    have h' : reconstruct [(0, 0, 0), (2, 0, 0)] [[0, 1], [1, 0]] (0, 0, 0) =
        argmax [(0 : ℚ), 1] := h
    rw [h']
    decide

/-- C1 is false on the code: in cascade (multi-output) mode no gating by
the coarse head happens. At the single voxel (0,0,0) the coarse
binary-tumor head predicts background (argmax [1,0] = 0) while the fine
head predicts class 3; the final reconstructed label volume (after
largest-connected-region post-processing) holds 3, not 0. -/
theorem C1_counterexample :
    argmax [(1 : ℚ), 0] = 0 ∧
    (test_network_compute (1, 1, 1) [(0, 0, 0)]
        (.multi [[(1 : ℚ), 0]] [[0, 0, 0, 1, 0]])).2 (0, 0, 0) = 3 := by
  constructor
  · decide
  · decide

/-- C1 amended: in cascade mode the final label volume is the fine
(most specific) head's argmax written at every sampled coordinate,
independent of the coarse head; the coarse head's argmax populates only
the separately saved ROI volume. No spatial gating of the fine labels
by the coarse head's positive mask occurs. -/
theorem C1_amended_ungated (dims : Coord) (centers : List Coord)
    (first first' fine : List (List ℚ)) :
    (test_network_compute dims centers (.multi first fine)).2 =
      (test_network_compute dims centers (.multi first' fine)).2 ∧
    (test_network_compute dims centers (.multi first fine)).1 = reconstruct centers first :=
  ⟨rfl, rfl⟩

/-- Embedding of `keras.utils.to_categorical(v, num_classes = n)`:
the n-entry one-hot vector with a 1 at index v. -/
def to_categorical (v n : ℕ) : List ℕ :=
  (List.range n).map fun i => if i = v then 1 else 0

/-- Embedding of the label-head construction in `transfer_learning`
(`test_brats2017.py`, lines 121-134) for one ground-truth value `v`:
`to_categorical(y.astype(bool), 2)`,
`to_categorical((y > 0).astype(int8) + (y > 1).astype(int8), 3)`, and
`to_categorical(y, 5)`. -/
def label_heads (v : ℕ) : List (List ℕ) :=
  [ to_categorical (if v ≠ 0 then 1 else 0) 2,
    to_categorical ((if 0 < v then 1 else 0) + (if 1 < v then 1 else 0)) 3,
    to_categorical v 5 ]

/-- C4: the three label heads derived from a ground-truth value `v` are
exactly the 2-class one-hot of the predicate `v ≠ 0`, the 3-class
one-hot of `min v 2` (every class above 1 merged into class 2, which is
what `(v > 0) + (v > 1)` computes), and the 5-class one-hot of `v`
itself. -/
theorem C4_label_heads (v : ℕ) :
    label_heads v =
      [ to_categorical (if v = 0 then 0 else 1) 2,
        to_categorical (min v 2) 3,
        to_categorical v 5 ] := by
  match v with
  | 0 => rfl
  | 1 => rfl
  | v + 2 =>
    have h1 : (if v + 2 ≠ 0 then 1 else 0) = (if v + 2 = 0 then 0 else 1) := by
      simp
    have h2 : ((if 0 < v + 2 then 1 else 0) + (if 1 < v + 2 then 1 else 0)) = min (v + 2) 2 := by
      rw [if_pos (by omega), if_pos (by omega)]
      omega
    simp [label_heads, h1, h2]

/-- A Keras layer of the primary model as seen by the alternating
retraining loop of `transfer_learning`: its name, whether it is a
`Dense` instance, and its `trainable` flag. -/
structure TLayer where
  name : String
  isDense : Bool
  trainable : Bool
deriving DecidableEq, Repr

/-- The output-layer names tested by `transfer_learning`
(`layer.name in ['core', 'tumor', 'enhancing']`). -/
def outNames : List String := ["core", "tumor", "enhancing"]

/-- Embedding of the initial freeze in `transfer_learning` (lines
103-106): every layer that is not a `Dense` instance gets
`trainable = False`. -/
def freezeNonDense (ls : List TLayer) : List TLayer :=
  ls.map fun l => if l.isDense then l else { l with trainable := false }

/-- Embedding of the first per-epoch reconfiguration (lines 147-152):
`Dense` layers named core/tumor/enhancing are frozen, all other `Dense`
layers unfrozen; non-`Dense` layers untouched. -/
def setDenseInner (ls : List TLayer) : List TLayer :=
  ls.map fun l =>
    if l.isDense then
      if l.name ∈ outNames then { l with trainable := false } else { l with trainable := true }
    else l

/-- Embedding of the second per-epoch reconfiguration (lines 158-163):
`Dense` layers named core/tumor/enhancing are unfrozen, all other
`Dense` layers frozen; non-`Dense` layers untouched. -/
def setDenseOut (ls : List TLayer) : List TLayer :=
  ls.map fun l =>
    if l.isDense then
      if l.name ∈ outNames then { l with trainable := true } else { l with trainable := false }
    else l

/-- The layer-state snapshots at each `net.fit` call of the primary
model in `transfer_learning`'s epoch loop (two fits per outer epoch,
the layer state carrying over between epochs). -/
def fitSnapshots : ℕ → List TLayer → List (List TLayer)
  | 0, _ => []
  | e + 1, st =>
    let a := setDenseInner st
    let b := setDenseOut a
    a :: b :: fitSnapshots e b

/-- The primary-model fit snapshots of a whole `transfer_learning` run:
initial non-`Dense` freeze, then the epoch loop. -/
def transfer_learning_fits (net : List TLayer) (epochs : ℕ) : List (List TLayer) :=
  fitSnapshots epochs (freezeNonDense net)

/-- Non-`Dense` layers are all frozen. -/
def NonDenseFrozen (ls : List TLayer) : Prop :=
  ∀ l ∈ ls, l.isDense = false → l.trainable = false

theorem nonDenseFrozen_freeze (net : List TLayer) : NonDenseFrozen (freezeNonDense net) := by
  intro l hl hd
  rcases List.mem_map.mp hl with ⟨l0, _, rfl⟩
  by_cases h : l0.isDense = true
  · simp only [if_pos h] at hd ⊢
    exact absurd h (by simp [hd])
  · simp only [Bool.not_eq_true] at h
    simp [h]

theorem setDenseInner_char (st : List TLayer) (hst : NonDenseFrozen st) :
    ∀ l ∈ setDenseInner st,
      l.trainable = true ↔ (l.isDense = true ∧ l.name ∉ outNames) := by
  intro l hl
  rcases List.mem_map.mp hl with ⟨l0, hl0, rfl⟩
  by_cases h : l0.isDense = true
  · by_cases hn : l0.name ∈ outNames
    · simp [h, hn]
    · simp [h, hn]
  · simp only [Bool.not_eq_true] at h
    have := hst l0 hl0 h
    simp [h, this]

theorem setDenseOut_char (st : List TLayer) (hst : NonDenseFrozen st) :
    ∀ l ∈ setDenseOut st,
      l.trainable = true ↔ (l.isDense = true ∧ l.name ∈ outNames) := by
  intro l hl
  rcases List.mem_map.mp hl with ⟨l0, hl0, rfl⟩
  by_cases h : l0.isDense = true
  · by_cases hn : l0.name ∈ outNames
    · simp [h, hn]
    · simp [h, hn]
  · simp only [Bool.not_eq_true] at h
    have := hst l0 hl0 h
    simp [h, this]

theorem setDenseInner_frozen (st : List TLayer) (hst : NonDenseFrozen st) :
    NonDenseFrozen (setDenseInner st) := by
  intro l hl hd
  exact of_not_not fun ht => by
    have := (setDenseInner_char st hst l hl).mp (by
      cases h : l.trainable with
      | true => rfl
      | false => exact absurd h ht)
    simp [hd] at this

theorem setDenseOut_frozen (st : List TLayer) (hst : NonDenseFrozen st) :
    NonDenseFrozen (setDenseOut st) := by
  intro l hl hd
  exact of_not_not fun ht => by
    have := (setDenseOut_char st hst l hl).mp (by
      cases h : l.trainable with
      | true => rfl
      | false => exact absurd h ht)
    simp [hd] at this

theorem fitSnapshots_spec (e : ℕ) :
    ∀ (st : List TLayer), NonDenseFrozen st →
      (fitSnapshots e st).length = 2 * e ∧
      ∀ (i : ℕ) (s : List TLayer), (fitSnapshots e st).get? i = some s →
        ∀ l ∈ s, l.trainable = true ↔
          (l.isDense = true ∧ (if i % 2 = 0 then l.name ∉ outNames else l.name ∈ outNames)) := by
  induction e with
  | zero => intro st _; exact ⟨rfl, by intro i s h; simp [fitSnapshots] at h⟩
  | succ e ih =>
    intro st hst
    have hA := setDenseInner_char st hst
    have hFa := setDenseInner_frozen st hst
    have hB := setDenseOut_char _ hFa
    have hFb := setDenseOut_frozen _ hFa
    obtain ⟨hlen, hrec⟩ := ih (setDenseOut (setDenseInner st)) hFb
    refine ⟨by simp [fitSnapshots, hlen]; ring, ?_⟩
    intro i s h
    match i with
    | 0 =>
      simp only [fitSnapshots, List.get?] at h
      cases h
      simpa using hA
    | 1 =>
      simp only [fitSnapshots, List.get?] at h
      cases h
      simpa using hB
    | i + 2 =>
      have h' : (fitSnapshots e (setDenseOut (setDenseInner st))).get? i = some s := h
      have := hrec i s h'
      have hm : (i + 2) % 2 = i % 2 := by omega
      simpa [hm] using this

/-- C3: during each outer epoch of `transfer_learning`'s loop the
primary model is fitted exactly twice (the snapshot list has length
2 * epochs, two per epoch in order), the first fit of each epoch has
precisely the `Dense` layers not named core/tumor/enhancing trainable,
the second fit precisely the `Dense` layers named
core/tumor/enhancing; a non-`Dense` layer (in particular every
convolutional layer) is never trainable in any fit. -/
theorem C3_alternating_freeze (net : List TLayer) (epochs : ℕ) :
    (transfer_learning_fits net epochs).length = 2 * epochs ∧
    ∀ (i : ℕ) (s : List TLayer), (transfer_learning_fits net epochs).get? i = some s →
      ∀ l ∈ s, l.trainable = true ↔
        (l.isDense = true ∧ (if i % 2 = 0 then l.name ∉ outNames else l.name ∈ outNames)) :=
  fitSnapshots_spec epochs (freezeNonDense net) (nonDenseFrozen_freeze net)

/-- A small concrete primary model: one convolutional layer, one
intermediate `Dense` layer, and the three output `Dense` layers. -/
def demoNet : List TLayer :=
  [ ⟨"conv3d_1", false, true⟩, ⟨"dense_1", true, true⟩,
    ⟨"tumor", true, true⟩, ⟨"core", true, true⟩, ⟨"enhancing", true, true⟩ ]

/-- Witness for C3 at a concrete input: one epoch on `demoNet` gives
two fits; in the first fit the output layer "tumor" is frozen and the
intermediate layer "dense_1" is trainable, and the convolutional layer
is frozen. -/
theorem C3_alternating_freeze_witness :
    (transfer_learning_fits demoNet 1).length = 2 * 1 ∧
    ((⟨"tumor", true, false⟩ : TLayer).trainable = true ↔
      ((⟨"tumor", true, false⟩ : TLayer).isDense = true ∧
        (if 0 % 2 = 0 then (⟨"tumor", true, false⟩ : TLayer).name ∉ outNames
         else (⟨"tumor", true, false⟩ : TLayer).name ∈ outNames))) ∧
    ((⟨"conv3d_1", false, false⟩ : TLayer).trainable = true ↔
      ((⟨"conv3d_1", false, false⟩ : TLayer).isDense = true ∧
        (if 0 % 2 = 0 then (⟨"conv3d_1", false, false⟩ : TLayer).name ∉ outNames
         else (⟨"conv3d_1", false, false⟩ : TLayer).name ∈ outNames))) := by
  obtain ⟨h1, h2⟩ := C3_alternating_freeze demoNet 1
  refine ⟨h1, ?_, ?_⟩
  · exact h2 0 (setDenseInner (freezeNonDense demoNet)) rfl _ (by decide)
  · exact h2 0 (setDenseInner (freezeNonDense demoNet)) rfl _ (by decide)

/-- Provenance tag for a layer's weight tensors: `orig i` is the
primary model's own i-th weight set, `domain i` is the secondary
(domain) model's i-th weight set. Weight transfer moves these tags
around, so the tag in a layer after transfer says exactly whose
weights the layer holds. -/
inductive WTag where
  | orig (i : ℕ)
  | domain (i : ℕ)
deriving DecidableEq, Repr

/-- A Keras layer as seen by the weight seeding/transfer code: its
name, whether it is a `Conv3D` layer, and the weight tensors that
`get_weights`/`set_weights` move around (represented by their
provenance tag). -/
structure WLayer where
  name : String
  isConv : Bool
  w : WTag
deriving DecidableEq, Repr

/-- Does the second character list start with the first one? -/
def charsStartWith : List Char → List Char → Bool
  | [], _ => true
  | _ :: _, [] => false
  | p :: ps, c :: cs => p = c && charsStartWith ps cs

/-- Is the first character list a contiguous substring of the second? -/
def charsInfix (pat : List Char) : List Char → Bool
  | [] => charsStartWith pat []
  | c :: cs => charsStartWith pat (c :: cs) || charsInfix pat cs

/-- Embedding of Python's `'conv' in l.name`. -/
def nameHasConv (n : String) : Bool :=
  charsInfix "conv".toList n.toList

/-- Decimal value of a digit character list. -/
def natOfDigits (cs : List Char) : ℕ :=
  cs.foldl (fun a c => a * 10 + (c.toNat - 48)) 0

/-- Embedding of `int(l.name[7:])`, the numeric suffix of an
auto-generated `conv3d_k` layer name used as the sort key for the
primary model's convolutional layers. -/
def convIndex (n : String) : ℕ :=
  natOfDigits (n.toList.drop 7)

/-- The layer list selection `[l for l in net.layers if 'conv' in
l.name]`, in model layer order. -/
def convNameLayers (m : List WLayer) : List WLayer :=
  m.filter fun l => nameHasConv l.name

/-- Stable insertion for sorting by a numeric key. -/
def insertLe (key : WLayer → ℕ) (x : WLayer) : List WLayer → List WLayer
  | [] => [x]
  | y :: ys => if key x ≤ key y then x :: y :: ys else y :: insertLe key x ys

/-- Stable sort by a numeric key (the embedding of Python's stable
`sorted(..., cmp=lambda l1, l2: int(l1.name[7:]) - int(l2.name[7:]))`). -/
def sortByKey (key : WLayer → ℕ) (ls : List WLayer) : List WLayer :=
  ls.foldr (insertLe key) []

/-- The primary model's convolutional-layer list as built in
`test_brats2017.py` (lines 97-101 and 417-421, 430-433): filter by
`'conv' in name`, then sort by the numeric name suffix. -/
def sortedConvLayers (m : List WLayer) : List WLayer :=
  sortByKey (fun l => convIndex l.name) (convNameLayers m)

/-- Embedding of the weight-transfer loops
`for l_new, l_orig in zip(net_new_conv_layers, net_orig_conv_layers):
l_orig.set_weights(l_new.get_weights())` (lines 170-171 and 430-431;
the seeding loop at 417-418 runs the same zip in the other direction):
the secondary model's name-filtered conv layers are zipped against the
primary's name-filtered-and-sorted conv layers, and each paired primary
layer receives the secondary layer's weights; `zip` silently truncates
to the shorter list. -/
def transfer_weights (mNew mOrig : List WLayer) : List WLayer :=
  let pairs := (convNameLayers mNew).zip (sortedConvLayers mOrig)
  mOrig.map fun l =>
    match pairs.find? (fun p => p.2.name == l.name) with
    | some p => { l with w := p.1.w }
    | none => l

/-- All layers of a model that actually are convolutional
(`Conv3D` instances), independent of their names. -/
def allConvLayers (m : List WLayer) : List WLayer :=
  m.filter fun l => l.isConv

/-- The primary model (`baseline-brats2017...mdl`, built by the
non-sequential branch of `train_test_brats2017.main` with the default
5 conv blocks): 15 auto-named `conv3d_k` convolutional layers created
flair/t2/t1-interleaved per block, followed by the dense classifier
stack with the named output layers. Non-conv non-dense plumbing layers
(input/reshape/lambda/dropout/flatten) never match the `'conv'` name
filter and are represented by the input layer. `w` tags each layer's
weights. -/
def mkPrimary : List WLayer :=
  [ ⟨"merged_inputs", false, .orig 0⟩,
    ⟨"conv3d_1", true, .orig 1⟩, ⟨"conv3d_2", true, .orig 2⟩, ⟨"conv3d_3", true, .orig 3⟩,
    ⟨"conv3d_4", true, .orig 4⟩, ⟨"conv3d_5", true, .orig 5⟩, ⟨"conv3d_6", true, .orig 6⟩,
    ⟨"conv3d_7", true, .orig 7⟩, ⟨"conv3d_8", true, .orig 8⟩, ⟨"conv3d_9", true, .orig 9⟩,
    ⟨"conv3d_10", true, .orig 10⟩, ⟨"conv3d_11", true, .orig 11⟩, ⟨"conv3d_12", true, .orig 12⟩,
    ⟨"conv3d_13", true, .orig 13⟩, ⟨"conv3d_14", true, .orig 14⟩, ⟨"conv3d_15", true, .orig 15⟩,
    ⟨"dense_1", false, .orig 16⟩, ⟨"dense_2", false, .orig 17⟩, ⟨"dense_3", false, .orig 18⟩,
    ⟨"tumor", false, .orig 19⟩, ⟨"core", false, .orig 20⟩, ⟨"enhancing", false, .orig 21⟩ ]

/-- The secondary (domain) model built by `create_new_network` with the
default 5 conv blocks: per tower the first 4 convolutional layers are
auto-named `conv3d_k` (the Keras naming counter having advanced past
the primary's layers), while the final convolutional layer of each
tower is explicitly named `flair` / `t2` / `t1` — names that do NOT
contain the substring `conv`. -/
def mkSecondary : List WLayer :=
  [ ⟨"merged_inputs", false, .domain 0⟩,
    ⟨"conv3d_16", true, .domain 1⟩, ⟨"conv3d_17", true, .domain 2⟩, ⟨"conv3d_18", true, .domain 3⟩,
    ⟨"conv3d_19", true, .domain 4⟩, ⟨"conv3d_20", true, .domain 5⟩, ⟨"conv3d_21", true, .domain 6⟩,
    ⟨"conv3d_22", true, .domain 7⟩, ⟨"conv3d_23", true, .domain 8⟩, ⟨"conv3d_24", true, .domain 9⟩,
    ⟨"conv3d_25", true, .domain 10⟩, ⟨"conv3d_26", true, .domain 11⟩,
    ⟨"conv3d_27", true, .domain 12⟩,
    ⟨"flair", true, .domain 13⟩, ⟨"t2", true, .domain 14⟩, ⟨"t1", true, .domain 15⟩ ]

/-- C2 is false on the code: the pairing is not by ordinal position
among convolutional layers and does not cover all of them. At position
12 (0-based) among its convolutional layers the secondary model has the
final tower conv named `flair` (weight tag `domain 13`), but after
transfer the primary model's position-12 convolutional layer
(`conv3d_13`) still holds its own old weights (tag `orig 13`): the name
filter `'conv' in name` excludes `flair`/`t2`/`t1` and the `zip`
truncates, so the last three convolutional layers of each model never
participate. -/
theorem C2_counterexample :
    ((allConvLayers (transfer_weights mkSecondary mkPrimary)).get? 12).map WLayer.w =
      some (.orig 13) ∧
    ((allConvLayers mkSecondary).get? 12).map WLayer.w = some (.domain 13) ∧
    WTag.orig 13 ≠ WTag.domain 13 := by
  refine ⟨by decide, by decide, by decide⟩

/-- C2 amended: weight transfer pairs the layers whose NAME contains
`conv` — the secondary model's in layer order, the primary's sorted by
numeric name suffix — truncated by `zip` to the shorter list. On the
default architecture this copies the secondary's 12 auto-named conv
layers onto the primary's `conv3d_1` … `conv3d_12`; the secondary's
final tower convs `flair`/`t2`/`t1` are excluded by the name filter,
the primary's `conv3d_13` … `conv3d_15` keep their old weights, and
every non-conv-named layer is untouched. The weight provenance tags in
the result record exactly whose weights every layer ends up with. -/
theorem C2_amended :
    transfer_weights mkSecondary mkPrimary =
      [ ⟨"merged_inputs", false, .orig 0⟩,
        ⟨"conv3d_1", true, .domain 1⟩, ⟨"conv3d_2", true, .domain 2⟩,
        ⟨"conv3d_3", true, .domain 3⟩, ⟨"conv3d_4", true, .domain 4⟩,
        ⟨"conv3d_5", true, .domain 5⟩, ⟨"conv3d_6", true, .domain 6⟩,
        ⟨"conv3d_7", true, .domain 7⟩, ⟨"conv3d_8", true, .domain 8⟩,
        ⟨"conv3d_9", true, .domain 9⟩, ⟨"conv3d_10", true, .domain 10⟩,
        ⟨"conv3d_11", true, .domain 11⟩, ⟨"conv3d_12", true, .domain 12⟩,
        ⟨"conv3d_13", true, .orig 13⟩, ⟨"conv3d_14", true, .orig 14⟩,
        ⟨"conv3d_15", true, .orig 15⟩,
        ⟨"dense_1", false, .orig 16⟩, ⟨"dense_2", false, .orig 17⟩,
        ⟨"dense_3", false, .orig 18⟩,
        ⟨"tumor", false, .orig 19⟩, ⟨"core", false, .orig 20⟩,
        ⟨"enhancing", false, .orig 21⟩ ] := by
  decide

/-- Embedding of the pickled-cache gate in `test_brats2017.main`
(lines 394-410): try to `pickle.load` the four per-patient artifacts
(ROI, mask, image, resampling rate); if all four load, use them; on any
`IOError`, run the recomputation (`get_best_roi` plus the reference
volume loads) and `pickle.dump` all four artifacts back. Returns the
four values, whether the recomputation ran, and the list of files
written. -/
def cache_gate (r m i t : Except Unit ℕ) (recompute : Except Unit (ℕ × ℕ × ℕ × ℕ)) :
    Except Unit ((ℕ × ℕ × ℕ × ℕ) × Bool × List String) :=
  match r, m, i, t with
  | .ok a, .ok b, .ok c, .ok d => .ok ((a, b, c, d), false, [])
  | _, _, _, _ =>
    match recompute with
    | .ok v => .ok (v, true, ["roi.pkl", "mask.pkl", "image.pkl", "rate.pkl"])
    | .error e => .error e

/-- C7: the four pickled cache artifacts gate recomputation. If all
four load, the loaded values are used, `get_best_roi` is not invoked
and nothing is written; if any load fails with `IOError` (and the
recomputation itself succeeds), the reference selection runs and all
four artifacts are written back. -/
theorem C7_cache_artifacts (r m i t : Except Unit ℕ) (rec : Except Unit (ℕ × ℕ × ℕ × ℕ)) :
    (∀ a b c d, r = .ok a → m = .ok b → i = .ok c → t = .ok d →
      cache_gate r m i t rec = .ok ((a, b, c, d), false, [])) ∧
    (∀ v, (r = .error () ∨ m = .error () ∨ i = .error () ∨ t = .error ()) → rec = .ok v →
      cache_gate r m i t rec =
        .ok (v, true, ["roi.pkl", "mask.pkl", "image.pkl", "rate.pkl"])) := by
  constructor
  · intro a b c d h1 h2 h3 h4
    subst h1; subst h2; subst h3; subst h4
    rfl
  · intro v hd hrec
    subst hrec
    cases r with
    | error e => cases e; cases m <;> cases i <;> cases t <;> rfl
    | ok a =>
      cases m with
      | error e => cases e; cases i <;> cases t <;> rfl
      | ok b =>
        cases i with
        | error e => cases e; cases t <;> rfl
        | ok c =>
          cases t with
          | error e => cases e; rfl
          | ok d => rcases hd with h | h | h | h <;> exact Except.noConfusion h

/-- Witness for C7 at concrete inputs: a full cache hit short-circuits,
and a missing ROI pickle triggers recomputation with all four files
written. -/
theorem C7_cache_artifacts_witness :
    cache_gate (.ok 1) (.ok 2) (.ok 3) (.ok 4) (.ok (9, 9, 9, 9)) =
      .ok ((1, 2, 3, 4), false, []) ∧
    cache_gate (.error ()) (.ok 2) (.ok 3) (.ok 4) (.ok (9, 9, 9, 9)) =
      .ok ((9, 9, 9, 9), true, ["roi.pkl", "mask.pkl", "image.pkl", "rate.pkl"]) := by
  exact ⟨(C7_cache_artifacts _ _ _ _ _).1 1 2 3 4 rfl rfl rfl rfl,
    (C7_cache_artifacts _ _ _ _ _).2 _ (Or.inl rfl) rfl⟩

/-- The fallible operations of one patient's iteration of the test loop
in `test_brats2017.main` (lines 352-453), as `Except`-valued oracles
(volumes and models are represented by identifiers; `error` stands for
an `IOError` or any other exception raised by the operation). -/
structure AdaptEnv where
  load_image_o : Except Unit ℕ
  load_baseline_o : Except Unit ℕ
  compute_image_o : Except Unit ℕ
  load_image_d : Except Unit ℕ
  load_baseline_d : Except Unit ℕ
  load_net_new : Except Unit ℕ
  compute_image_r : Except Unit ℕ
  roi_pkl : Except Unit ℕ
  mask_pkl : Except Unit ℕ
  image_pkl : Except Unit ℕ
  rate_pkl : Except Unit ℕ
  recompute_cache : Except Unit (ℕ × ℕ × ℕ × ℕ)
  save_net_new : Except Unit Unit
  compute_image_d : Except Unit ℕ

/-- Embedding of one patient's control flow in `test_brats2017.main`:
`image_o` is loaded, with an `IOError` handler that loads the baseline
model and recomputes; `image_d` is loaded, with an `IOError` handler
that loads the baseline model, tries to load the cached domain model
and on `IOError` rebuilds it (tumor-ROI prediction, pickled-cache gate,
transfer learning, model save), then recomputes the prediction. Only
the four shown `try/except IOError` handlers exist: every failure
inside a recomputation branch propagates out of the patient's
iteration. -/
def processPatient (env : AdaptEnv) : Except Unit (ℕ × ℕ) := do
  let image_o ← match env.load_image_o with
    | .ok v => Except.ok v
    | .error _ => do
        let _ ← env.load_baseline_o
        env.compute_image_o
  let image_d ← match env.load_image_d with
    | .ok v => Except.ok v
    | .error _ => do
        let _ ← env.load_baseline_d
        let _ ← (match env.load_net_new with
          | .ok n => Except.ok n
          | .error _ => do
              let _ ← env.compute_image_r
              let _ ← cache_gate env.roi_pkl env.mask_pkl env.image_pkl env.rate_pkl
                env.recompute_cache
              let _ ← env.save_net_new
              Except.ok 0)
        env.compute_image_d
  Except.ok (image_o, image_d)

/-- Embedding of the test sweep: the `for` loop over patients in
`test_brats2017.main`. An exception escaping one patient's iteration
aborts the whole loop (there is no handler around the loop body), so no
result list is produced at all. -/
def sweep : List AdaptEnv → Except Unit (List (ℕ × ℕ))
  | [] => .ok []
  | env :: rest =>
    match processPatient env with
    | .error e => .error e
    | .ok r =>
      match sweep rest with
      | .error e => .error e
      | .ok rs => .ok (r :: rs)

/-- A patient whose cached original prediction loads, whose cached
domain prediction and domain model are missing, and whose adaptation
rebuild fails at `net_new.save` — every other operation succeeds. -/
def envBad : AdaptEnv :=
  { load_image_o := .ok 7, load_baseline_o := .ok 1, compute_image_o := .ok 7,
    load_image_d := .error (), load_baseline_d := .ok 1, load_net_new := .error (),
    compute_image_r := .ok 3,
    roi_pkl := .ok 1, mask_pkl := .ok 2, image_pkl := .ok 3, rate_pkl := .ok 4,
    recompute_cache := .ok (1, 2, 3, 4), save_net_new := .error (),
    compute_image_d := .ok 9 }

/-- A patient for whom both cached predictions load immediately. -/
def envGood : AdaptEnv :=
  { load_image_o := .ok 11, load_baseline_o := .ok 1, compute_image_o := .ok 11,
    load_image_d := .ok 12, load_baseline_d := .ok 1, load_net_new := .ok 2,
    compute_image_r := .ok 3,
    roi_pkl := .ok 1, mask_pkl := .ok 2, image_pkl := .ok 3, rate_pkl := .ok 4,
    recompute_cache := .ok (1, 2, 3, 4), save_net_new := .ok (),
    compute_image_d := .ok 12 }

/-- C5 is false on the code: a save failure during the first patient's
adaptation does not fall back to that patient's already-computed
original prediction (volume 7) and does not let the sweep continue with
the next patient — the whole sweep aborts with the error and no
per-patient results (hence no aggregate DSC metrics) are produced, even
though the second patient alone would have succeeded. -/
theorem C5_counterexample :
    processPatient envBad = .error () ∧
    processPatient envGood = .ok (11, 12) ∧
    sweep [envBad, envGood] = .error () :=
  ⟨rfl, rfl, rfl⟩

/-- C5 amended: only the four specific `try/except IOError` gates
(cached original prediction, cached domain prediction, cached domain
model, the four pickled artifacts) recover from failure, by
recomputing; any failure inside a recomputation branch — baseline model
load, tumor-ROI prediction, reference recomputation, adapted-model
save, or the domain prediction itself — propagates and aborts the
entire test sweep, with no fallback to the original prediction and no
per-patient skipping. A patient whose two cached predictions load never
fails. -/
theorem C5_amended (env : AdaptEnv) (rest : List AdaptEnv) :
    (∀ e, processPatient env = .error e → sweep (env :: rest) = .error e) ∧
    (∀ a b, env.load_image_o = .ok a → env.load_image_d = .ok b →
      processPatient env = .ok (a, b)) := by
  constructor
  · intro e h
    simp [sweep, h]
  · intro a b h1 h2
    simp [processPatient, h1, h2]
    rfl

/-- Witness for C5 amended at concrete inputs: the failing patient
aborts the sweep, and a fully cached patient succeeds. -/
theorem C5_amended_witness :
    sweep (envBad :: [envGood]) = .error () ∧ processPatient envGood = .ok (11, 12) :=
  ⟨(C5_amended envBad [envGood]).1 () rfl, (C5_amended envGood []).2 11 12 rfl rfl⟩

/-- Embedding of `np.logical_and(image_r.astype(bool),
image_o.astype(bool))` in `test_brats2017.main` (line 386): the
voxelwise AND of the two predictions' foreground supports, as the 0/1
volume numpy produces. -/
def roi_and (image_r image_o : Vol) : Vol :=
  fun c => if image_r c ≠ 0 ∧ image_o c ≠ 0 then 1 else 0

/-- Embedding of `np.count_nonzero` over a volume of known dimensions. -/
def count_nonzero (dims : Coord) (v : Vol) : ℕ :=
  ((allCoords dims).filter fun c => decide (v c ≠ 0)).length

/-- The characteristic property of the AND volume's foreground. -/
theorem roi_and_ne_zero (r o : Vol) (c : Coord) :
    roi_and r o c ≠ 0 ↔ (r c ≠ 0 ∧ o c ≠ 0) := by
  by_cases h : (r c ≠ 0 ∧ o c ≠ 0) <;> simp [roi_and, h]

/-- Embedding of the ROI selection at `test_brats2017.main` line 388:
`data, clip = clip_to_roi(p_images, roi) if np.count_nonzero(roi) > 0
else clip_to_roi(p_images, image_r)` — the volume handed to
`clip_to_roi` as the mask argument. -/
def clip_input (dims : Coord) (image_r image_o : Vol) : Vol :=
  if 0 < count_nonzero dims (roi_and image_r image_o) then roi_and image_r image_o else image_r

/-- The domain-adaptation input data: `clip_to_roi` itself lives in
`data_creation.py` (not under `src/`) and is kept abstract as a
parameter; the claim is about which mask volume the branch in `main`
hands to it. -/
def domain_data {α : Type} (clip_to_roi : Vol → α) (dims : Coord) (image_r image_o : Vol) : α :=
  clip_to_roi (clip_input dims image_r image_o)

/-- C9: the domain-adaptation ROI is the voxelwise logical AND of the
binary tumor-ROI prediction and the original multi-class prediction;
when that intersection has at least one nonzero voxel the images are
clipped to it, and when it has none they are clipped to the tumor-ROI
prediction alone (no error is raised — `domain_data` is total). -/
theorem C9_roi_intersection {α : Type} (clip : Vol → α) (dims : Coord) (r o : Vol) :
    ((∃ c ∈ allCoords dims, r c ≠ 0 ∧ o c ≠ 0) →
      domain_data clip dims r o = clip (roi_and r o)) ∧
    ((∀ c ∈ allCoords dims, ¬(r c ≠ 0 ∧ o c ≠ 0)) →
      domain_data clip dims r o = clip r) := by
  have key : 0 < count_nonzero dims (roi_and r o) ↔
      ∃ c ∈ allCoords dims, r c ≠ 0 ∧ o c ≠ 0 := by
    unfold count_nonzero
    rw [List.length_pos_iff_exists_mem]
    constructor
    · rintro ⟨c, hc⟩
      obtain ⟨hmem, hp⟩ := List.mem_filter.mp hc
      exact ⟨c, hmem, (roi_and_ne_zero r o c).mp (of_decide_eq_true hp)⟩
    · rintro ⟨c, hmem, hco⟩
      exact ⟨c, List.mem_filter.mpr ⟨hmem, decide_eq_true ((roi_and_ne_zero r o c).mpr hco)⟩⟩
  constructor
  · intro h
    unfold domain_data clip_input
    rw [if_pos (key.mpr h)]
  · intro h
    unfold domain_data clip_input
    rw [if_neg]
    intro hpos
    obtain ⟨c, hmem, hco⟩ := key.mp hpos
    exact h c hmem hco

/-- Witness for C9 at concrete inputs: disjoint single-voxel
predictions fall back to clipping by the tumor-ROI prediction, and an
overlapping pair clips by the AND volume. -/
theorem C9_roi_intersection_witness :
    domain_data (fun v => v) ((1, 1, 2) : Coord)
      (fun c => if c = ((0, 0, 0) : Coord) then 1 else 0)
      (fun c => if c = ((0, 0, 1) : Coord) then 1 else 0) =
      (fun c => if c = ((0, 0, 0) : Coord) then 1 else 0) ∧
    domain_data (fun v => v) ((1, 1, 1) : Coord) (fun _ => 2) (fun _ => 3) =
      roi_and (fun _ => 2) (fun _ => 3) := by
  constructor
  · exact (C9_roi_intersection _ _ _ _).2 (by decide)
  · exact (C9_roi_intersection _ _ _ _).1 ⟨(0, 0, 0), by decide, by decide⟩

/-- Embedding of the memoised entry of `test_network`
(`test_brats2017.py`, lines 179-185 and 229-235): if the NIfTI file at
the computed output path loads and the companion ROI file loads, the
stored volume is returned and the network is never run; otherwise the
compute branch runs the prediction and reconstruction. The filesystem
is an oracle from paths to stored volumes; the boolean records whether
`net.predict_generator` was invoked. -/
def test_network_run (fs : String → Option Vol) (pO pR : String) (dims : Coord)
    (centers : List Coord) (out : PredOut) : Vol × Bool :=
  match fs pO, fs pR with
  | some img, some _ => (img, false)
  | _, _ => ((test_network_compute dims centers out).2, true)

/-- C10: when the output NIfTI file exists at the computed path and its
companion ROI file loads, `test_network` returns the stored volume
without invoking the model's predict, so the returned volume is
independent of which model (prediction) is passed, and any two calls
resolving to the same output path return the same volume. -/
theorem C10_memoised (fs : String → Option Vol) (pO pR : String) (img roiv : Vol)
    (h1 : fs pO = some img) (h2 : fs pR = some roiv) :
    ∀ (dims : Coord) (centers : List Coord) (out out' : PredOut),
      test_network_run fs pO pR dims centers out = (img, false) ∧
      test_network_run fs pO pR dims centers out =
        test_network_run fs pO pR dims centers out' := by
  intro dims centers out out'
  constructor <;> simp [test_network_run, h1, h2]

/-- A filesystem holding a stored output volume and its companion ROI
volume. -/
def exFs : String → Option Vol := fun s =>
  if s = "deep-brats17.test.domain.nii.gz" then some fun _ => 2
  else if s = "deep-brats17.test.domain.roi.nii.gz" then some fun _ => 1
  else none

/-- Witness for C10 at concrete inputs: with both files present the
stored volume comes back unchanged for two different model
predictions. -/
theorem C10_memoised_witness :
    test_network_run exFs "deep-brats17.test.domain.nii.gz"
      "deep-brats17.test.domain.roi.nii.gz" (1, 1, 1) [] (.single []) =
      ((fun _ => 2), false) ∧
    test_network_run exFs "deep-brats17.test.domain.nii.gz"
      "deep-brats17.test.domain.roi.nii.gz" (1, 1, 1) [] (.single []) =
      test_network_run exFs "deep-brats17.test.domain.nii.gz"
        "deep-brats17.test.domain.roi.nii.gz" (1, 1, 1) [] (.multi [] []) :=
  C10_memoised exFs "deep-brats17.test.domain.nii.gz" "deep-brats17.test.domain.roi.nii.gz"
    (fun _ => 2) (fun _ => 1) (by rfl) (by rfl) (1, 1, 1) [] (.single []) (.multi [] [])

/-- Output shape of one valid (unpadded) `Conv3D` in channels-first
layout: the channel count becomes the filter count and every spatial
dimension shrinks by `kernel - 1`. -/
def conv3d_shape (filters kernel : ℕ) : List ℕ → List ℕ
  | [] => []
  | _ :: ds => filters :: ds.map fun d => d - (kernel - 1)

/-- Shape after a tower of `Conv3D` layers given by paired filter
counts and kernel sizes. -/
def conv_tower_shape (filters kernels : List ℕ) (s : List ℕ) : List ℕ :=
  (filters.zip kernels).foldl (fun acc fk => conv3d_shape fk.1 fk.2 acc) s

/-- Default `filters_list`: `-n 32` with 5 conv blocks. -/
def default_filters : List ℕ := [32, 32, 32, 32, 32]

/-- Default `kernel_size_list`: kernel 3 with 5 conv blocks. -/
def default_kernels : List ℕ := [3, 3, 3, 3, 3]

/-- Per-sample output-head shapes of the secondary model built by
`create_new_network` (`test_brats2017.py`, lines 237-297): three conv
towers on the flair (1 channel), t2 (1 channel) and t1+t1ce
(2 channels) splits of the input ROI, each ending in a `Conv3D` — the
model's outputs are the three convolutional feature maps. -/
def create_new_network_head_shapes (spatial : List ℕ) (filters kernels : List ℕ) :
    List (List ℕ) :=
  [ conv_tower_shape filters kernels (1 :: spatial),
    conv_tower_shape filters kernels (1 :: spatial),
    conv_tower_shape filters kernels (2 :: spatial) ]

/-- Per-sample output shape of a `Dense(units, softmax)` head. -/
def dense_shape (units : ℕ) : List ℕ := [units]

/-- Per-sample output-head shapes of the primary model
(`train_test_brats2017.py`, lines 251-255): `Dense(2, 'tumor')`,
`Dense(3, 'core')`, `Dense(num_classes = 5, 'enhancing')`, all
softmax. -/
def primary_head_shapes : List (List ℕ) :=
  [dense_shape 2, dense_shape 3, dense_shape 5]

/-- A dense numeric array at shape level: its shape and its flattened
entries. -/
structure NArr where
  shape : List ℕ
  entries : List ℚ

/-- Number of elements of a shape. -/
def numel (s : List ℕ) : ℕ := s.foldl (· * ·) 1

/-- The all-zero array of a given shape. -/
def zerosOf (s : List ℕ) : NArr := ⟨s, List.replicate (numel s) 0⟩

/-- Two arrays agree within tolerance: same shape and entrywise
absolute difference at most `tol`. -/
def closeTo (tol : ℚ) (a b : NArr) : Prop :=
  a.shape = b.shape ∧ ∀ p ∈ a.entries.zip b.entries, |p.1 - p.2| ≤ tol

/-- One prediction (a list of per-head arrays) reproduces another
within some floating tolerance: same head count and each pair of head
arrays close within a common nonnegative tolerance. -/
def reproduces (as bs : List NArr) : Prop :=
  as.length = bs.length ∧ ∃ tol : ℚ, 0 ≤ tol ∧ ∀ p ∈ as.zip bs, closeTo tol p.1 p.2

/-- C6 is false on the code: the primary model and the adapted
secondary model do not even have output heads of the same shape — the
primary's heads are softmax vectors over 2/3/5 classes while
`create_new_network`'s heads are 32-channel convolutional feature maps
(here on a 30×30×30 reference ROI) — so no prediction of the primary
can reproduce a prediction of the secondary within any tolerance,
whatever the transferred weights. -/
theorem C6_counterexample :
    primary_head_shapes ≠
      create_new_network_head_shapes [30, 30, 30] default_filters default_kernels ∧
    ¬ reproduces (primary_head_shapes.map zerosOf)
      ((create_new_network_head_shapes [30, 30, 30] default_filters default_kernels).map
        zerosOf) := by
  constructor
  · decide
  · rintro ⟨-, tol, -, hall⟩
    have hm : (zerosOf (dense_shape 2),
        zerosOf (conv_tower_shape default_filters default_kernels (1 :: [30, 30, 30]))) ∈
        (primary_head_shapes.map zerosOf).zip
          ((create_new_network_head_shapes [30, 30, 30] default_filters
            default_kernels).map zerosOf) :=
      List.mem_cons_self _ _
    have hsh := (hall _ hm).1
    exact absurd hsh (by decide)

/-- C6 amended: after `DomainAdapter`'s weight transfer the primary
model's conv-named layers at the transferred positions hold exactly the
secondary model's corresponding weights (the copied prefix round-trips
exactly), but no prediction-level round-trip holds: the two models'
output heads have different shapes, so the primary's prediction cannot
reproduce the secondary's on the reference ROI. -/
theorem C6_amended :
    ((convNameLayers (transfer_weights mkSecondary mkPrimary)).map WLayer.w).take 12 =
      ((convNameLayers mkSecondary).map WLayer.w).take 12 ∧
    primary_head_shapes ≠
      create_new_network_head_shapes [30, 30, 30] default_filters default_kernels := by
  exact ⟨by decide, by decide⟩

end Brats2017
